import Mathlib

/-!
Shallow embedding of `tvdb_api.py`: the hierarchical Show/Season/Episode
data model, the search operations, and the `Tvdb` catalog resolver
(name→sid correction cache, hydration via `_getShowData`, and the
`__getitem__` resolve entry point), together with theorems checking the
natural-language specification against this embedding.

Python dicts are modelled as association lists with unique keys
(`dlookup` / `dinsert`), remote fetching as an oracle (`Remote`) giving
each endpoint's parsed document (or a connectivity error), and the
mutable `Tvdb` instance state as an explicit `TvdbState` threaded through
the operations.  Each operation additionally returns the list of fetches
it performed, so "no re-fetch" claims are statements about that trace.
-/

/-! ## Python-dict primitives -/

section Dict

variable {κ α : Type} [DecidableEq κ]

/-- Lookup in a Python-dict modelled as an association list
(first binding for the key wins; by construction keys are unique). -/
def dlookup : List (κ × α) → κ → Option α
  | [], _ => none
  | p :: rest, k => if p.1 = k then some p.2 else dlookup rest k

/-- Python dict assignment `d[k] = v`: replace the binding in place if the
key is present, otherwise append a new binding. -/
def dinsert : List (κ × α) → κ → α → List (κ × α)
  | [], k, v => [(k, v)]
  | p :: rest, k, v => if p.1 = k then (k, v) :: rest else p :: dinsert rest k v

theorem dlookup_dinsert (d : List (κ × α)) (k k' : κ) (v : α) :
    dlookup (dinsert d k v) k' = if k = k' then some v else dlookup d k' := by
  induction d with
  | nil =>
    by_cases h : k = k' <;> simp [dinsert, dlookup, h]
  | cons p rest ih =>
    by_cases hp : p.1 = k
    · by_cases h : k = k'
      · simp [dinsert, dlookup, hp, h]
      · have hp' : ¬ p.1 = k' := by rw [hp]; exact h
        simp [dinsert, dlookup, hp, h, hp']
    · by_cases h : p.1 = k'
      · have hk : ¬ k = k' := fun e => hp (by rw [h, ← e])
        have hk' : ¬ k' = k := fun e => hp (h.trans e)
        simp [dinsert, dlookup, hp, h, hk, hk']
      · simp [dinsert, dlookup, hp, h, ih]

theorem dlookup_dinsert_self (d : List (κ × α)) (k : κ) (v : α) :
    dlookup (dinsert d k v) k = some v := by
  simp [dlookup_dinsert]

theorem dlookup_dinsert_ne (d : List (κ × α)) (k k' : κ) (v : α) (h : k ≠ k') :
    dlookup (dinsert d k v) k' = dlookup d k' := by
  simp [dlookup_dinsert, h]

end Dict

/-! ## Error taxonomy (`tvdb_exceptions` plus Python-level failures) -/

/-- Errors surfaced by the library: the `tvdb_exceptions` hierarchy, the
Python `KeyError` a plain dict access can raise, and `pyExc` for other
uncaught Python exceptions (AttributeError/ValueError/TypeError/IndexError). -/
inductive TvdbErr : Type
  | error (msg : String)              -- tvdb_error: connectivity failure
  | userabort                         -- tvdb_userabort
  | shownotfound (msg : String)       -- tvdb_shownotfound
  | seasonnotfound (msg : String)     -- tvdb_seasonnotfound
  | episodenotfound                   -- tvdb_episodenotfound (raised bare)
  | attributenotfound (msg : String)  -- tvdb_attributenotfound
  | keyError                          -- Python KeyError from a plain dict
  | pyExc (name : String)             -- other uncaught Python exception
  deriving Repr, DecidableEq

deriving instance DecidableEq for Except

/-! ## Python string primitives -/

/-- Python `str.lower()` (ASCII model, matching `unicode(x).lower()` on
basic latin): lowercase every character. -/
def pyLower (s : String) : String := ⟨s.data.map Char.toLower⟩

/-- Whitespace characters stripped by Python `str.strip()`. -/
def isPySpace (c : Char) : Bool := c = ' ' || c = '\t' || c = '\n' || c = '\r'

/-- Python `str.strip()`: drop leading and trailing whitespace. -/
def pyStrip (l : List Char) : List Char :=
  ((l.dropWhile isPySpace).reverse.dropWhile isPySpace).reverse

/-- Python `s.replace("&amp;", "and")`: left-to-right, non-overlapping. -/
def replaceAmp : List Char → List Char
  | '&' :: 'a' :: 'm' :: 'p' :: ';' :: rest => 'a' :: 'n' :: 'd' :: replaceAmp rest
  | c :: rest => c :: replaceAmp rest
  | [] => []

/-- Digit-run parse used by the Python `int()` model: every character must
be a digit and the run must be non-empty. -/
def digitsToNat? (l : List Char) : Option Nat :=
  if l.isEmpty then none
  else if l.all Char.isDigit then
    some (l.foldl (fun n c => n * 10 + (c.toNat - 48)) 0)
  else none

/-- Python `s.endswith(t)`. -/
def pyEndsWith (s t : String) : Bool := t.data.reverse.isPrefixOf s.data.reverse

/-! ## Keys and `can_int` -/

/-- A key passed to `Show.__getitem__`: either a Python int (season number)
or a string (show-attribute name). -/
inductive Key : Type
  | num (n : Int)
  | str (s : String)
  deriving Repr, DecidableEq

/-- Python `int(s)` on a string: optional surrounding whitespace, optional
sign, then a non-empty digit run; `none` when `int()` raises ValueError. -/
def pyParseInt (s : String) : Option Int :=
  match pyStrip s.data with
  | '-' :: rest => (digitsToNat? rest).map (fun n => -(n : Int))
  | '+' :: rest => (digitsToNat? rest).map (fun n => (n : Int))
  | l => (digitsToNat? l).map (fun n => (n : Int))

/-- Embeds `can_int`: whether Python `int(x)` succeeds on the key. -/
def can_int : Key → Bool
  | .num _ => true
  | .str s => (pyParseInt s).isSome

/-- Python `"%s" % key` as used in the error messages. -/
def keyStr : Key → String
  | .num n => toString n
  | .str s => s

/-! ## Hierarchical data model -/

/-- An Episode: Python dict from attribute name to string value. -/
abbrev Episode := List (String × String)

/-- A Season: Python dict from episode number to Episode. -/
abbrev Season := List (Int × Episode)

/-- Leaf of the banner tree: banner-element tag → text. -/
abbrev BannerLeaf := List (String × Option String)

/-- Banner tree: banner-type → banner-type2 → banner-id → leaf.  The keys
come from element text, which may be `None` in Python, hence `Option`. -/
abbrev Banners := List (Option String × List (Option String × List (Option String × BannerLeaf)))

set_option synthInstance.maxSize 1024

/-- A value in a Show's `data` dict: either element text (possibly `None`,
stored as-is by `_setShowData`) or the `_banners` tree. -/
inductive DataVal : Type
  | text (t : Option String)
  | banners (b : Banners)
  deriving Repr, DecidableEq

/-- A Show: dict from season number to Season, plus the separate `data`
dict of show-level attributes. -/
structure Show where
  seasons : List (Int × Season)
  data : List (String × DataVal)
  deriving Repr, DecidableEq

/-- Result of `Show.__getitem__`: either a Season child or a show-level
attribute value. -/
inductive ShowItem : Type
  | season (s : Season)
  | attr (v : DataVal)
  deriving Repr, DecidableEq

/-- Python membership `key in self` for the Show's season dict: the season
keys are ints, so a string key is never present. -/
def Show.seasonLookup (sh : Show) : Key → Option Season
  | .num n => dlookup sh.seasons n
  | .str _ => none

/-- Python membership `key in self.data`: the data keys are strings, so an
int key is never present. -/
def Show.dataLookup (sh : Show) : Key → Option DataVal
  | .num _ => none
  | .str s => dlookup sh.data s

/-- Embeds `Show.__getitem__`: season child first, then show-data
attribute, then `tvdb_seasonnotfound` for numeric-looking keys and
`tvdb_attributenotfound` otherwise. -/
def Show.getItem (sh : Show) (key : Key) : Except TvdbErr ShowItem :=
  match sh.seasonLookup key with
  | some se => .ok (.season se)
  | none =>
    match sh.dataLookup key with
    | some v => .ok (.attr v)
    | none =>
      if can_int key then
        .error (.seasonnotfound ("Could not find season " ++ keyStr key))
      else
        .error (.attributenotfound ("Cannot find attribute " ++ keyStr key))

/-- Embeds `Season.__getitem__`: return the Episode or raise
`tvdb_episodenotfound`. -/
def Season.getItem (se : Season) (episode_number : Int) : Except TvdbErr Episode :=
  match dlookup se episode_number with
  | some ep => .ok ep
  | none => .error .episodenotfound

/-- Embeds `Episode.__getitem__`: return the attribute value or raise
`tvdb_attributenotfound`. -/
def Episode.getItem (ep : Episode) (key : String) : Except TvdbErr String :=
  match dlookup ep key with
  | some v => .ok v
  | none => .error (.attributenotfound ("Cannot find attribute " ++ key))

/-! ## Search -/

/-- Loop condition of `Episode.search` for `continue`:
`key is not None and cur_key != key`, with `cur_key` already lowercased. -/
def skipKey (key : Option String) (ck : String) : Bool :=
  match key with
  | some k => decide (pyLower ck ≠ k)
  | none => false

/-- Loop body of `Episode.search` over `self.items()`: both the stored key
and value are lowercased; a `key` argument restricts to items whose
lowercased stored key equals it; a match is a substring test of the
lowercased term against the lowercased value. -/
def Episode.searchAux (e : Episode) (term : String) (key : Option String) :
    List (String × String) → Option Episode
  | [] => none
  | (ck, cv) :: rest =>
    if skipKey key ck then
      Episode.searchAux e term key rest
    else if decide ((pyLower term).toList <:+: (pyLower cv).toList) then
      some e
    else
      Episode.searchAux e term key rest

/-- Embeds `Episode.search` (with the mandatory term already supplied):
the term is lowercased up front (`term = unicode(term).lower()`), and the
loop returns `self` on the first matching item, else `None`. -/
def Episode.search (e : Episode) (term : String) (key : Option String) : Option Episode :=
  Episode.searchAux e (pyLower term) key e

/-- Embeds `Season.search`: collect the non-`None` results of searching
each episode value. -/
def Season.search (se : Season) (term : String) (key : Option String) : List Episode :=
  match se with
  | [] => []
  | (_, ep) :: rest =>
    match Episode.search ep term key with
    | some r => r :: Season.search rest term key
    | none => Season.search rest term key

/-- Loop of `Show.search` over the season values, extending the result
list with each season's non-empty search result. -/
def Show.searchAux (term : String) (key : Option String) : List (Int × Season) → List Episode
  | [] => []
  | (_, se) :: rest =>
    (if (Season.search se term key).length ≠ 0 then Season.search se term key else []) ++
      Show.searchAux term key rest

/-- Embeds `Show.search`: flatten the per-season search results. -/
def Show.search (sh : Show) (term : String) (key : Option String) : List Episode :=
  Show.searchAux term key sh.seasons

/-! ## The Tvdb catalog resolver -/

/-- A show identifier: the text of the search result's `id` element
(`None` in Python when the element is empty, hence `Option`). -/
abbrev Sid := Option String

/-- A parsed markup element as the resolver consumes it: its tag and its
child elements as (tag, text) pairs. -/
abbrev Elem := String × List (String × Option String)

/-- ElementTree `parent.find(tag)`: first child with the given tag,
returning its text; `none` when no such child exists. -/
def findTag (children : List (String × Option String)) (tag : String) :
    Option (Option String) :=
  match children with
  | [] => none
  | c :: rest => if c.1 = tag then some c.2 else findTag rest tag

/-- One fetch performed against the remote service, for trace-based
"no re-fetch" statements. -/
inductive Fetch : Type
  | search (name : String)        -- url_getSeries
  | seriesInfo (sid : Sid)        -- url_seriesInfo
  | seriesBanner (sid : Sid)      -- url_seriesBanner
  | epInfo (sid : Sid)            -- url_epInfo
  deriving Repr, DecidableEq

/-- The remote service plus markup parser, as an oracle: each endpoint
either yields its parsed document (the relevant root children as `Elem`s)
or fails (connectivity error / parse exception). -/
structure Remote where
  searchDoc : String → Except TvdbErr (List Elem)
  seriesInfoDoc : Sid → Except TvdbErr (List Elem)
  bannersDoc : Sid → Except TvdbErr (List Elem)
  epsDoc : Sid → Except TvdbErr (List Elem)

/-- Construction-time configuration relevant to the resolver core. -/
structure Config where
  banners_enabled : Bool
  deriving Repr, DecidableEq

/-- The mutable state of a `Tvdb` instance: `self.shows` and
`self.corrections`. -/
structure TvdbState where
  shows : List (Sid × Show)
  corrections : List (String × Sid)
  deriving Repr, DecidableEq

/-- A candidate series as parsed by `_getSeries`. -/
structure Candidate where
  sid : Sid
  name : String
  deriving Repr, DecidableEq

/-- The Disambiguator (`tvdb_ui` strategy object, pluggable via
`custom_ui` / `interactive`): given the candidate list it returns one
selected candidate or an error (for example a user abort). -/
abbrev UI := List Candidate → Except TvdbErr Candidate

/-- Python `"%s" % v` on an optional string. -/
def pyStrOpt : Option String → String
  | none => "None"
  | some s => s

/-- Embeds `_cleanData`: replace the literal `&amp;` with `and`, then
strip surrounding whitespace. -/
def cleanData (data : String) : String :=
  ⟨pyStrip (replaceAmp data.data)⟩

/-- Embeds the parsing loop of `_getSeries` over the search document's
children: each element must have a `SeriesName` child with non-`None` text
(else Python raises on `sn.tag` / `_cleanData(None)`) and an `id` child
(else `None.text` raises); yields `{sid, name}` candidates in order. -/
def parseCandidates : List Elem → Except TvdbErr (List Candidate)
  | [] => .ok []
  | e :: rest =>
    match findTag e.2 "SeriesName" with
    | none => .error (.pyExc "AttributeError")
    | some none => .error (.pyExc "AttributeError")
    | some (some txt) =>
      match findTag e.2 "id" with
      | none => .error (.pyExc "AttributeError")
      | some sid =>
        match parseCandidates rest with
        | .error err => .error err
        | .ok cs => .ok ({ sid := sid, name := cleanData txt } :: cs)

/-- Embeds `Tvdb._getSeries`: fetch the name-search document, parse the
candidate list, raise `tvdb_shownotfound` when it is empty, and otherwise
delegate the choice to the Disambiguator. -/
def Tvdb.getSeries (remote : Remote) (ui : UI) (series : String) :
    Except TvdbErr Candidate × List Fetch :=
  match remote.searchDoc series with
  | .error e => (.error e, [Fetch.search series])
  | .ok doc =>
    match parseCandidates doc with
    | .error e => (.error e, [Fetch.search series])
    | .ok allSeries =>
      if allSeries.length = 0 then
        (.error (.shownotfound "Show-name search returned zero results (cannot find show on TVDB)"),
          [Fetch.search series])
      else
        (ui allSeries, [Fetch.search series])

/-- Embeds `Tvdb._setItem`: auto-create the Show, Season and Episode along
the path if needed, then set the attribute. -/
def TvdbState.setItem (st : TvdbState) (sid : Sid) (seas ep : Int)
    (attrib value : String) : TvdbState :=
  let sh := (dlookup st.shows sid).getD ⟨[], []⟩
  let se := (dlookup sh.seasons seas).getD []
  let epd := (dlookup se ep).getD []
  let epd' := dinsert epd attrib value
  let se' := dinsert se ep epd'
  let sh' := { sh with seasons := dinsert sh.seasons seas se' }
  { st with shows := dinsert st.shows sid sh' }

/-- Embeds `Tvdb._setShowData`: auto-create the Show if needed and set a
show-level data attribute. -/
def TvdbState.setShowData (st : TvdbState) (sid : Sid) (key : String)
    (value : DataVal) : TvdbState :=
  let sh := (dlookup st.shows sid).getD ⟨[], []⟩
  { st with shows := dinsert st.shows sid { sh with data := dinsert sh.data key value } }

/-- Show-info loop of `_getShowData`: each child of the `Series` element
becomes a show-level attribute (tag lowercased, text stored as-is). -/
def setShowDataLoop (sid : Sid) (children : List (String × Option String))
    (st : TvdbState) : TvdbState :=
  children.foldl (fun st c => st.setShowData sid (pyLower c.1) (.text c.2)) st

/-- Embeds the body of the banner loop of `_getShowData` for one `Banner`
element: skip it unless both `BannerType` and `BannerType2` children
exist; build the nested tree entry; copy every child (tag, text); then,
over a snapshot of the entry, synthesize an absolute-URL attribute
`_<k>` for every attribute `k` ending in `path`. -/
def processBanner (bs : Banners) (children : List (String × Option String)) :
    Except TvdbErr Banners :=
  match findTag children "id" with
  | none => .error (.pyExc "AttributeError")
  | some bid =>
    match findTag children "BannerType", findTag children "BannerType2" with
    | none, _ => .ok bs
    | some _, none => .ok bs
    | some bt, some bt2 =>
      let m2 := (dlookup bs bt).getD []
      let m1 := (dlookup m2 bt2).getD []
      let leaf := (dlookup m1 bid).getD []
      let leaf1 := children.foldl (fun l c => dinsert l c.1 c.2) leaf
      let leaf2 := leaf1.foldl (fun l kv =>
        if pyEndsWith kv.1 "path" then
          dinsert l ("_" ++ kv.1)
            (some ("http://www.thetvdb.com/banners/" ++ pyStrOpt kv.2))
        else l) leaf1
      .ok (dinsert bs bt (dinsert m2 bt2 (dinsert m1 bid leaf2)))

/-- Banner loop of `_getShowData` over all `Banner` elements. -/
def processBanners (bs : Banners) : List Elem → Except TvdbErr Banners
  | [] => .ok bs
  | e :: rest =>
    match processBanner bs e.2 with
    | .error err => .error err
    | .ok bs' => processBanners bs' rest

/-- Python `int(element_text)`: TypeError on `None`, ValueError on a
non-numeric string. -/
def pyInt (t : Option String) : Except TvdbErr Int :=
  match t with
  | none => .error (.pyExc "TypeError")
  | some s =>
    match pyParseInt s with
    | some n => .ok n
    | none => .error (.pyExc "ValueError")

/-- Episode loop body of `_getShowData` for one `Episode` element: read
`SeasonNumber` and `EpisodeNumber` as ints, then set an attribute (tag
lowercased, text cleaned) for every child whose text is not `None`. -/
def processEp (sid : Sid) (e : Elem) (st : TvdbState) : Except TvdbErr TvdbState :=
  match findTag e.2 "SeasonNumber" with
  | none => .error (.pyExc "AttributeError")
  | some t1 =>
    match pyInt t1 with
    | .error err => .error err
    | .ok seas_no =>
      match findTag e.2 "EpisodeNumber" with
      | none => .error (.pyExc "AttributeError")
      | some t2 =>
        match pyInt t2 with
        | .error err => .error err
        | .ok ep_no =>
          .ok (e.2.foldl (fun st c =>
            match c.2 with
            | none => st
            | some v => st.setItem sid seas_no ep_no (pyLower c.1) (cleanData v)) st)

/-- Episode loop of `_getShowData` over all `Episode` elements; an error
mid-loop keeps the mutations already made (Python semantics). -/
def processEpisodes (sid : Sid) : List Elem → TvdbState → Except TvdbErr Unit × TvdbState
  | [], st => (.ok (), st)
  | e :: rest, st =>
    match processEp sid e st with
    | .error err => (.error err, st)
    | .ok st' => processEpisodes sid rest st'

/-- Episode-list stage of `_getShowData`: fetch the `epInfo` document and
run the episode loop over its `Episode` elements. -/
def Tvdb.getEps (remote : Remote) (sid : Sid) (st : TvdbState) (fs : List Fetch) :
    Except TvdbErr Unit × TvdbState × List Fetch :=
  match remote.epsDoc sid with
  | .error e => (.error e, st, fs ++ [Fetch.epInfo sid])
  | .ok doc =>
    let r := processEpisodes sid (doc.filter (fun el => el.1 = "Episode")) st
    (r.1, r.2, fs ++ [Fetch.epInfo sid])

/-- Embeds `Tvdb._getShowData`: hydrate one identifier — fetch and store
the show info, then (if enabled) the banner tree, then the episode list.
The state is returned even on error, keeping mutations already made. -/
def Tvdb.getShowData (remote : Remote) (cfg : Config) (sid : Sid) (st : TvdbState) :
    Except TvdbErr Unit × TvdbState × List Fetch :=
  match remote.seriesInfoDoc sid with
  | .error e => (.error e, st, [Fetch.seriesInfo sid])
  | .ok doc =>
    match doc.filter (fun el => el.1 = "Series") with
    | [] => (.error (.pyExc "IndexError"), st, [Fetch.seriesInfo sid])
    | series :: _ =>
      let st1 := setShowDataLoop sid series.2 st
      if cfg.banners_enabled then
        match remote.bannersDoc sid with
        | .error e => (.error e, st1, [Fetch.seriesInfo sid, Fetch.seriesBanner sid])
        | .ok bdoc =>
          match processBanners [] (bdoc.filter (fun el => el.1 = "Banner")) with
          | .error e => (.error e, st1, [Fetch.seriesInfo sid, Fetch.seriesBanner sid])
          | .ok bs =>
            let st2 := st1.setShowData sid "_banners" (.banners bs)
            Tvdb.getEps remote sid st2 [Fetch.seriesInfo sid, Fetch.seriesBanner sid]
      else
        Tvdb.getEps remote sid st1 [Fetch.seriesInfo sid]

/-- Embeds `Tvdb._nameToSid`: answer from the `corrections` cache, or
search, select, cache the correction, and hydrate. -/
def Tvdb.nameToSid (remote : Remote) (cfg : Config) (ui : UI) (name : String)
    (st : TvdbState) : Except TvdbErr Sid × TvdbState × List Fetch :=
  match dlookup st.corrections name with
  | some sid => (.ok sid, st, [])
  | none =>
    match Tvdb.getSeries remote ui name with
    | (.error e, fs) => (.error e, st, fs)
    | (.ok selected, fs) =>
      match Tvdb.getShowData remote cfg selected.sid
          { st with corrections := dinsert st.corrections name selected.sid } with
      | (.error e, st2, fs2) => (.error e, st2, fs ++ fs2)
      | (.ok _, st2, fs2) => (.ok selected.sid, st2, fs ++ fs2)

/-- Embeds `Tvdb.__getitem__` (resolve): lowercase the name, resolve it to
an identifier, and return `self.shows[sid]` (a plain dict access, raising
`KeyError` when the identifier has no Show entry). -/
def Tvdb.getItem (remote : Remote) (cfg : Config) (ui : UI) (key : String)
    (st : TvdbState) : Except TvdbErr Show × TvdbState × List Fetch :=
  match Tvdb.nameToSid remote cfg ui ((pyLower key)) st with
  | (.error e, st1, fs) => (.error e, st1, fs)
  | (.ok sid, st1, fs) =>
    match dlookup st1.shows sid with
    | none => (.error .keyError, st1, fs)
    | some sh => (.ok sh, st1, fs)

/-- Nested lookup `shows[sid][seas][ep][field]`, the episode-attribute
content of the catalog state. -/
def TvdbState.epLookup (st : TvdbState) (sid : Sid) (seas ep : Int)
    (field : String) : Option String :=
  match dlookup st.shows sid with
  | none => none
  | some sh =>
    match dlookup sh.seasons seas with
    | none => none
    | some se =>
      match dlookup se ep with
      | none => none
      | some epd => dlookup epd field

/-- The state has no season content for `sid` (either no Show entry, or a
Show whose season dict is empty). -/
def TvdbState.noSeasons (st : TvdbState) (sid : Sid) : Prop :=
  ∀ sh, dlookup st.shows sid = some sh → sh.seasons = []

/-- The per-element source condition used by the hydration-content
theorems: element `e` parses to season `seas` and episode `ep`, and has a
child with non-`None` text whose lowercased tag is `field` and whose
cleaned text is `v`. -/
def epGives (e : Elem) (seas ep : Int) (field v : String) : Prop :=
  (∃ t1, findTag e.2 "SeasonNumber" = some t1 ∧ pyInt t1 = .ok seas) ∧
  (∃ t2, findTag e.2 "EpisodeNumber" = some t2 ∧ pyInt t2 = .ok ep) ∧
  (∃ c ∈ e.2, ∃ txt, c.2 = some txt ∧ (pyLower c.1) = field ∧ cleanData txt = v)

/-- Weaker per-element condition for the set-of-attributes theorem:
element `e` parses to `(seas, ep)` and has a child with non-`None` text
whose lowercased tag is `field`. -/
def epSetsField (e : Elem) (seas ep : Int) (field : String) : Prop :=
  (∃ t1, findTag e.2 "SeasonNumber" = some t1 ∧ pyInt t1 = .ok seas) ∧
  (∃ t2, findTag e.2 "EpisodeNumber" = some t2 ∧ pyInt t2 = .ok ep) ∧
  (∃ c ∈ e.2, (pyLower c.1) = field ∧ c.2 ≠ none)

/-- Whether an attribute with stored name `ck` takes part in the search
comparison: with no `key` every attribute does; with a `key`, only those
whose lowercased stored name equals the key. -/
def qualifies (key : Option String) (ck : String) : Bool :=
  match key with
  | none => true
  | some k => pyLower ck == k

/-! ## Concrete worlds used by witnesses and counterexamples -/

/-- A select-first Disambiguator (the default `BaseUI` behaviour). -/
def exUI : UI := fun cs =>
  match cs with
  | c :: _ => .ok c
  | [] => .error .userabort

def exCfg : Config := ⟨false⟩

def exSt0 : TvdbState := ⟨[], []⟩

/-- A remote where names `a` and `b` both resolve to series id `1` (which
hydrates successfully), and `z` parses to zero candidates. -/
def exRemote : Remote where
  searchDoc := fun n =>
    if n = "a" ∨ n = "b" then
      .ok [("Series", [("SeriesName", some "A Show"), ("id", some "1")])]
    else if n = "z" then .ok []
    else .error (.error "conn")
  seriesInfoDoc := fun sid =>
    if sid = some "1" then
      .ok [("Series", [("SeriesName", some "A Show"), ("Overview", some "ov")])]
    else .error (.error "conn")
  bannersDoc := fun _ => .error (.error "conn")
  epsDoc := fun sid =>
    if sid = some "1" then
      .ok [("Episode", [("SeasonNumber", some "1"), ("EpisodeNumber", some "2"),
                        ("EpisodeName", some " My First &amp; Day ")])]
    else .error (.error "conn")

/-- State after a first successful resolve of `a` against `exRemote`. -/
def exStA : TvdbState := (Tvdb.getItem exRemote exCfg exUI "a" exSt0).2.1

def exShowA : Show := (Tvdb.getItem exRemote exCfg exUI "a" exSt0).1.toOption.getD ⟨[], []⟩

def exFsA : List Fetch := (Tvdb.getItem exRemote exCfg exUI "a" exSt0).2.2

/-- State, fetch list and episode document of a direct hydration of id `1`
from the empty state against `exRemote`. -/
def exStH : TvdbState := (Tvdb.getShowData exRemote exCfg (some "1") exSt0).2.1

def exFsH : List Fetch := (Tvdb.getShowData exRemote exCfg (some "1") exSt0).2.2

def exDocH : List Elem :=
  [("Episode", [("SeasonNumber", some "1"), ("EpisodeNumber", some "2"),
                ("EpisodeName", some " My First &amp; Day ")])]

def exShH : Show := (dlookup exStH.shows (some "1")).getD ⟨[], []⟩

def exSeH : Season := (dlookup exShH.seasons 1).getD []

def exEpH : Episode := (dlookup exSeH 2).getD []

/-- A remote where hydration's first fetch (show info) always fails. -/
def exRemoteInfoFail : Remote where
  searchDoc := fun n =>
    if n = "a" then .ok [("S", [("SeriesName", some "T"), ("id", some "9")])]
    else .error (.error "conn")
  seriesInfoDoc := fun _ => .error (.error "conn")
  bannersDoc := fun _ => .error (.error "conn")
  epsDoc := fun _ => .error (.error "conn")

/-- A remote where show info succeeds but the episode-list fetch fails, so
hydration aborts after the Show entry was already created. -/
def exRemoteEpsFail : Remote where
  searchDoc := fun n =>
    if n = "a" then .ok [("S", [("SeriesName", some "T"), ("id", some "9")])]
    else .error (.error "conn")
  seriesInfoDoc := fun sid =>
    if sid = some "9" then .ok [("Series", [("SeriesName", some "T")])]
    else .error (.error "conn")
  bannersDoc := fun _ => .error (.error "conn")
  epsDoc := fun _ => .error (.error "conn")

/-- Concrete model entities for the data-model witnesses. -/
def exEpW : Episode := [("episodename", "My First Day"), ("seasonnumber", "1")]

def exSeW : Season := [(1, exEpW)]

def exShowW : Show := ⟨[(1, exSeW)], [("seriesname", .text (some "Scrubs"))]⟩

/-! ## Helper lemmas -/

theorem char_toLower_toLower (c : Char) : c.toLower.toLower = c.toLower := by
  unfold Char.toLower
  by_cases h : c.toNat ≥ 65 ∧ c.toNat ≤ 90
  · rw [if_pos h]
    have hv : (c.toNat + 32).isValidChar := by
      unfold Nat.isValidChar
      left
      omega
    have ht : (Char.ofNat (c.toNat + 32)).toNat = c.toNat + 32 := by
      rw [Char.ofNat, dif_pos hv]
      simp [Char.ofNatAux, Char.toNat, UInt32.toNat, BitVec.toNat_ofNatLt]
    rw [ht, if_neg (by omega)]
  · rw [if_neg h, if_neg h]

theorem pyLower_pyLower (s : String) : pyLower (pyLower s) = pyLower s := by
  unfold pyLower
  congr 1
  rw [List.map_map]
  exact List.map_congr_left (fun c _ => char_toLower_toLower c)

theorem epLookup_setItem (st : TvdbState) (sid : Sid) (seas ep : Int)
    (attrib value : String) (sid' : Sid) (seas' ep' : Int) (field : String) :
    (st.setItem sid seas ep attrib value).epLookup sid' seas' ep' field =
      if sid = sid' ∧ seas = seas' ∧ ep = ep' ∧ attrib = field then some value
      else st.epLookup sid' seas' ep' field := by
  unfold TvdbState.setItem TvdbState.epLookup
  by_cases h1 : sid = sid'
  · subst h1
    simp only [dlookup_dinsert_self]
    by_cases h2 : seas = seas'
    · subst h2
      simp only [dlookup_dinsert_self]
      by_cases h3 : ep = ep'
      · subst h3
        simp only [dlookup_dinsert_self]
        by_cases h4 : attrib = field
        · simp [dlookup_dinsert, h4]
        · cases hsh : dlookup st.shows sid with
          | none => simp [dlookup_dinsert, h4, hsh, dlookup]
          | some sh =>
            cases hse : dlookup sh.seasons seas with
            | none => simp [dlookup_dinsert, h4, hsh, hse, dlookup]
            | some se =>
              cases hep : dlookup se ep with
              | none => simp [dlookup_dinsert, h4, hsh, hse, hep, dlookup]
              | some epd => simp [dlookup_dinsert, h4, hsh, hse, hep]
      · cases hsh : dlookup st.shows sid with
        | none => simp [dlookup_dinsert, h3, hsh, dlookup]
        | some sh =>
          cases hse : dlookup sh.seasons seas with
          | none => simp [dlookup_dinsert, h3, hsh, hse, dlookup]
          | some se => simp [dlookup_dinsert, h3, hsh, hse]
    · cases hsh : dlookup st.shows sid with
      | none => simp [dlookup_dinsert, h2, hsh, dlookup]
      | some sh => simp [dlookup_dinsert, h2, hsh]
  · simp [dlookup_dinsert, h1]

theorem epLookup_setShowData (st : TvdbState) (sid : Sid) (key : String)
    (value : DataVal) (sid' : Sid) (seas ep : Int) (field : String) :
    (st.setShowData sid key value).epLookup sid' seas ep field =
      st.epLookup sid' seas ep field := by
  unfold TvdbState.setShowData TvdbState.epLookup
  by_cases h1 : sid = sid'
  · subst h1
    cases hsh : dlookup st.shows sid with
    | none => simp [dlookup_dinsert_self, hsh, dlookup]
    | some sh => simp [dlookup_dinsert_self, hsh]
  · simp [dlookup_dinsert, h1]

theorem epLookup_setShowDataLoop (sid : Sid) (children : List (String × Option String))
    (st : TvdbState) (sid' : Sid) (seas ep : Int) (field : String) :
    (setShowDataLoop sid children st).epLookup sid' seas ep field =
      st.epLookup sid' seas ep field := by
  induction children generalizing st with
  | nil => rfl
  | cons c rest ih =>
    unfold setShowDataLoop at ih ⊢
    simp only [List.foldl_cons]
    rw [ih, epLookup_setShowData]

theorem corrections_setItem (st : TvdbState) (sid : Sid) (seas ep : Int)
    (attrib value : String) :
    (st.setItem sid seas ep attrib value).corrections = st.corrections := rfl

theorem corrections_setShowData (st : TvdbState) (sid : Sid) (key : String)
    (value : DataVal) :
    (st.setShowData sid key value).corrections = st.corrections := rfl

theorem corrections_setShowDataLoop (sid : Sid) (children : List (String × Option String))
    (st : TvdbState) :
    (setShowDataLoop sid children st).corrections = st.corrections := by
  induction children generalizing st with
  | nil => rfl
  | cons c rest ih =>
    unfold setShowDataLoop at ih ⊢
    simp only [List.foldl_cons]
    rw [ih, corrections_setShowData]

theorem corrections_epFold (sid : Sid) (seas ep : Int)
    (cs : List (String × Option String)) (st : TvdbState) :
    (cs.foldl (fun st c =>
      match c.2 with
      | none => st
      | some v => st.setItem sid seas ep (pyLower c.1) (cleanData v)) st).corrections =
      st.corrections := by
  induction cs generalizing st with
  | nil => rfl
  | cons c rest ih =>
    simp only [List.foldl_cons]
    rw [ih]
    cases c.2 <;> rfl

theorem corrections_processEp (sid : Sid) (e : Elem) (st st' : TvdbState)
    (h : processEp sid e st = .ok st') : st'.corrections = st.corrections := by
  unfold processEp at h
  repeat' split at h
  all_goals first
    | exact (Except.noConfusion h)
    | (injection h with h2
       rw [← h2]
       exact corrections_epFold sid _ _ e.2 st)

theorem corrections_processEpisodes (sid : Sid) (eps : List Elem) (st : TvdbState) :
    (processEpisodes sid eps st).2.corrections = st.corrections := by
  induction eps generalizing st with
  | nil => rfl
  | cons e rest ih =>
    unfold processEpisodes
    cases hp : processEp sid e st with
    | error err => rfl
    | ok st1 =>
      simp only []
      rw [ih st1, corrections_processEp sid e st st1 hp]

theorem corrections_getEps (remote : Remote) (sid : Sid) (st : TvdbState)
    (fs : List Fetch) :
    (Tvdb.getEps remote sid st fs).2.1.corrections = st.corrections := by
  unfold Tvdb.getEps
  cases remote.epsDoc sid with
  | error e => rfl
  | ok doc => exact corrections_processEpisodes sid _ st

theorem corrections_getShowData (remote : Remote) (cfg : Config) (sid : Sid)
    (st : TvdbState) :
    (Tvdb.getShowData remote cfg sid st).2.1.corrections = st.corrections := by
  unfold Tvdb.getShowData
  cases remote.seriesInfoDoc sid with
  | error e => rfl
  | ok doc =>
    simp only []
    cases doc.filter (fun el => el.1 = "Series") with
    | nil => rfl
    | cons series rest =>
      simp only []
      by_cases hb : cfg.banners_enabled
      · simp only [hb, if_true]
        cases remote.bannersDoc sid with
        | error e => simp [corrections_setShowDataLoop]
        | ok bdoc =>
          simp only []
          cases processBanners [] (bdoc.filter (fun el => el.1 = "Banner")) with
          | error e => simp [corrections_setShowDataLoop]
          | ok bs =>
            simp only []
            rw [corrections_getEps, corrections_setShowData, corrections_setShowDataLoop]
      · simp only [hb, Bool.false_eq_true, if_false]
        rw [corrections_getEps, corrections_setShowDataLoop]

theorem noSeasons_of_absent (st : TvdbState) (sid : Sid)
    (h : dlookup st.shows sid = none) : st.noSeasons sid := by
  intro sh hsh
  rw [h] at hsh
  exact Option.noConfusion hsh

theorem noSeasons_setShowData (st : TvdbState) (sid : Sid) (sid' : Sid)
    (key : String) (value : DataVal) (h : st.noSeasons sid) :
    (st.setShowData sid' key value).noSeasons sid := by
  intro sh hsh
  unfold TvdbState.setShowData at hsh
  simp only [dlookup_dinsert] at hsh
  by_cases e : sid' = sid
  · rw [if_pos e] at hsh
    injection hsh with hsh
    rw [← hsh]
    cases hsh0 : dlookup st.shows sid' with
    | none => simp [hsh0]
    | some sh1 =>
      simp only [hsh0, Option.getD_some]
      exact h sh1 (e ▸ hsh0)
  · rw [if_neg e] at hsh
    exact h sh hsh

theorem noSeasons_setShowDataLoop (sid : Sid) (children : List (String × Option String))
    (st : TvdbState) (sid' : Sid) (h : st.noSeasons sid') :
    (setShowDataLoop sid children st).noSeasons sid' := by
  induction children generalizing st with
  | nil => exact h
  | cons c rest ih =>
    unfold setShowDataLoop at ih ⊢
    simp only [List.foldl_cons]
    exact ih _ (noSeasons_setShowData _ _ _ _ _ h)

theorem epLookup_none_of_noSeasons (st : TvdbState) (sid : Sid)
    (h : st.noSeasons sid) (seas ep : Int) (field : String) :
    st.epLookup sid seas ep field = none := by
  unfold TvdbState.epLookup
  cases hsh : dlookup st.shows sid with
  | none => rfl
  | some sh =>
    have hse : sh.seasons = [] := h sh hsh
    simp [hse, dlookup]

theorem epLookup_epFold (sid : Sid) (seas ep : Int)
    (cs : List (String × Option String)) (st : TvdbState)
    (sid' : Sid) (seas' ep' : Int) (field v : String)
    (h : (cs.foldl (fun st c =>
        match c.2 with
        | none => st
        | some w => st.setItem sid seas ep (pyLower c.1) (cleanData w)) st).epLookup
          sid' seas' ep' field = some v) :
    st.epLookup sid' seas' ep' field = some v ∨
      (sid = sid' ∧ seas = seas' ∧ ep = ep' ∧
        ∃ c ∈ cs, ∃ txt, c.2 = some txt ∧ (pyLower c.1) = field ∧ cleanData txt = v) := by
  induction cs generalizing st with
  | nil => exact Or.inl h
  | cons c rest ih =>
    simp only [List.foldl_cons] at h
    rcases ih _ h with h1 | ⟨e1, e2, e3, c', hc', rest'⟩
    · cases hc2 : c.2 with
      | none => rw [hc2] at h1; exact Or.inl h1
      | some txt =>
        rw [hc2] at h1
        rw [epLookup_setItem] at h1
        by_cases hcond : sid = sid' ∧ seas = seas' ∧ ep = ep' ∧ (pyLower c.1) = field
        · rw [if_pos hcond] at h1
          injection h1 with h1
          exact Or.inr ⟨hcond.1, hcond.2.1, hcond.2.2.1,
            c, List.mem_cons_self c rest, txt, hc2, hcond.2.2.2, h1⟩
        · rw [if_neg hcond] at h1
          exact Or.inl h1
    · exact Or.inr ⟨e1, e2, e3, c', List.mem_cons_of_mem c hc', rest'⟩

theorem epLookup_processEp (sid : Sid) (e : Elem) (st st' : TvdbState)
    (h : processEp sid e st = .ok st')
    (sid' : Sid) (seas' ep' : Int) (field v : String)
    (hl : st'.epLookup sid' seas' ep' field = some v) :
    st.epLookup sid' seas' ep' field = some v ∨
      (sid = sid' ∧ epGives e seas' ep' field v) := by
  unfold processEp at h
  split at h
  · exact absurd h (by simp)
  rename_i t1 hf1
  split at h
  · exact absurd h (by simp)
  rename_i seas_no hp1
  split at h
  · exact absurd h (by simp)
  rename_i t2 hf2
  split at h
  · exact absurd h (by simp)
  rename_i ep_no hp2
  injection h with h
  rw [← h] at hl
  rcases epLookup_epFold sid seas_no ep_no e.2 st sid' seas' ep' field v hl with
    h1 | ⟨e1, e2, e3, c, hc, txt, htxt, hfield, hclean⟩
  · exact Or.inl h1
  · exact Or.inr ⟨e1, ⟨t1, hf1, e2 ▸ hp1⟩, ⟨t2, hf2, e3 ▸ hp2⟩,
      c, hc, txt, htxt, hfield, hclean⟩

theorem epLookup_processEpisodes (sid : Sid) (eps : List Elem) (st st' : TvdbState)
    (h : processEpisodes sid eps st = (.ok (), st'))
    (sid' : Sid) (seas' ep' : Int) (field v : String)
    (hl : st'.epLookup sid' seas' ep' field = some v) :
    st.epLookup sid' seas' ep' field = some v ∨
      (sid = sid' ∧ ∃ e ∈ eps, epGives e seas' ep' field v) := by
  induction eps generalizing st with
  | nil =>
    unfold processEpisodes at h
    injection h with h1 h2
    rw [← h2] at hl
    exact Or.inl hl
  | cons e rest ih =>
    unfold processEpisodes at h
    cases hp : processEp sid e st with
    | error err => rw [hp] at h; exact absurd h (by simp)
    | ok st1 =>
      rw [hp] at h
      rcases ih st1 h with h1 | ⟨e1, el, hel, hg⟩
      · rcases epLookup_processEp sid e st st1 hp sid' seas' ep' field v h1 with
          h2 | ⟨e2, hg2⟩
        · exact Or.inl h2
        · exact Or.inr ⟨e2, e, List.mem_cons_self e rest, hg2⟩
      · exact Or.inr ⟨e1, el, List.mem_cons_of_mem e hel, hg⟩

theorem epLookup_epFold_mono (sid : Sid) (seas ep : Int)
    (cs : List (String × Option String)) (st : TvdbState)
    (sid' : Sid) (seas' ep' : Int) (field : String)
    (h : (st.epLookup sid' seas' ep' field).isSome) :
    ((cs.foldl (fun st c =>
        match c.2 with
        | none => st
        | some w => st.setItem sid seas ep (pyLower c.1) (cleanData w)) st).epLookup
          sid' seas' ep' field).isSome := by
  induction cs generalizing st with
  | nil => exact h
  | cons c rest ih =>
    simp only [List.foldl_cons]
    apply ih
    cases hc2 : c.2 with
    | none => exact h
    | some txt =>
      rw [epLookup_setItem]
      by_cases hcond : sid = sid' ∧ seas = seas' ∧ ep = ep' ∧ (pyLower c.1) = field
      · rw [if_pos hcond]; rfl
      · rw [if_neg hcond]; exact h

theorem epLookup_epFold_sets (sid : Sid) (seas ep : Int)
    (cs : List (String × Option String)) (st : TvdbState)
    (c : String × Option String) (hc : c ∈ cs) (txt : String) (htxt : c.2 = some txt) :
    ((cs.foldl (fun st c =>
        match c.2 with
        | none => st
        | some w => st.setItem sid seas ep (pyLower c.1) (cleanData w)) st).epLookup
          sid seas ep (pyLower c.1)).isSome := by
  induction cs generalizing st with
  | nil => exact absurd hc (List.not_mem_nil c)
  | cons d rest ih =>
    simp only [List.foldl_cons]
    rcases List.mem_cons.mp hc with h1 | h2
    · subst h1
      apply epLookup_epFold_mono
      rw [htxt, epLookup_setItem, if_pos ⟨rfl, rfl, rfl, rfl⟩]
      rfl
    · exact ih _ h2

theorem epLookup_processEp_mono (sid : Sid) (e : Elem) (st st' : TvdbState)
    (h : processEp sid e st = .ok st')
    (sid' : Sid) (seas' ep' : Int) (field : String)
    (hl : (st.epLookup sid' seas' ep' field).isSome) :
    (st'.epLookup sid' seas' ep' field).isSome := by
  unfold processEp at h
  repeat' split at h
  all_goals first
    | exact (Except.noConfusion h)
    | (injection h with h
       rw [← h]
       exact epLookup_epFold_mono _ _ _ e.2 st _ _ _ _ hl)

theorem epLookup_processEpisodes_mono (sid : Sid) (eps : List Elem) (st st' : TvdbState)
    (h : processEpisodes sid eps st = (.ok (), st'))
    (sid' : Sid) (seas' ep' : Int) (field : String)
    (hl : (st.epLookup sid' seas' ep' field).isSome) :
    (st'.epLookup sid' seas' ep' field).isSome := by
  induction eps generalizing st with
  | nil =>
    unfold processEpisodes at h
    injection h with h1 h2
    rw [← h2]
    exact hl
  | cons e rest ih =>
    unfold processEpisodes at h
    cases hp : processEp sid e st with
    | error err => rw [hp] at h; exact absurd h (by simp)
    | ok st1 =>
      rw [hp] at h
      exact ih st1 h (epLookup_processEp_mono sid e st st1 hp sid' seas' ep' field hl)

theorem epLookup_processEp_sets (sid : Sid) (e : Elem) (st st' : TvdbState)
    (h : processEp sid e st = .ok st')
    (seas ep : Int) (field : String)
    (hs : epSetsField e seas ep field) :
    (st'.epLookup sid seas ep field).isSome := by
  obtain ⟨⟨t1, hf1, hp1⟩, ⟨t2, hf2, hp2⟩, c, hc, hfield, htxt⟩ := hs
  unfold processEp at h
  rw [hf1] at h
  simp only [hp1] at h
  rw [hf2] at h
  simp only [hp2] at h
  injection h with h
  rw [← h, ← hfield]
  cases hc2 : c.2 with
  | none => exact absurd hc2 htxt
  | some txt => exact epLookup_epFold_sets sid seas ep e.2 st c hc txt hc2

theorem epLookup_processEpisodes_sets (sid : Sid) (eps : List Elem) (st st' : TvdbState)
    (h : processEpisodes sid eps st = (.ok (), st'))
    (e : Elem) (he : e ∈ eps) (seas ep : Int) (field : String)
    (hs : epSetsField e seas ep field) :
    (st'.epLookup sid seas ep field).isSome := by
  induction eps generalizing st with
  | nil => exact absurd he (List.not_mem_nil e)
  | cons d rest ih =>
    unfold processEpisodes at h
    cases hp : processEp sid d st with
    | error err => rw [hp] at h; exact absurd h (by simp)
    | ok st1 =>
      rw [hp] at h
      rcases List.mem_cons.mp he with h1 | h2
      · subst h1
        exact epLookup_processEpisodes_mono sid rest st1 st' h sid seas ep field
          (epLookup_processEp_sets sid e st st1 hp seas ep field hs)
      · exact ih st1 h h2

theorem getEps_ok (remote : Remote) (sid : Sid) (st : TvdbState) (fs : List Fetch)
    (st' : TvdbState) (fs' : List Fetch)
    (h : Tvdb.getEps remote sid st fs = (.ok (), st', fs')) :
    ∃ doc, remote.epsDoc sid = .ok doc ∧
      processEpisodes sid (doc.filter (fun el => el.1 = "Episode")) st =
        (.ok (), st') := by
  unfold Tvdb.getEps at h
  split at h
  · exact absurd h (by simp)
  rename_i doc heps
  refine ⟨doc, heps, ?_⟩
  simp only [Prod.mk.injEq] at h
  have heta : processEpisodes sid (doc.filter (fun el => el.1 = "Episode")) st =
      ((processEpisodes sid (doc.filter (fun el => el.1 = "Episode")) st).1,
       (processEpisodes sid (doc.filter (fun el => el.1 = "Episode")) st).2) := rfl
  rw [heta, h.1, h.2.1]

/-- Decomposition of a successful hydration: the episode document was
fetched and the episode loop ran from an intermediate state that still has
no season content for a fresh `sid`. -/
theorem getShowData_ok_decomp (remote : Remote) (cfg : Config) (sid : Sid)
    (st st' : TvdbState) (fs : List Fetch)
    (h : Tvdb.getShowData remote cfg sid st = (.ok (), st', fs))
    (hfresh : st.noSeasons sid) :
    ∃ doc stMid, remote.epsDoc sid = .ok doc ∧ stMid.noSeasons sid ∧
      processEpisodes sid (doc.filter (fun el => el.1 = "Episode")) stMid =
        (.ok (), st') := by
  unfold Tvdb.getShowData at h
  split at h
  · exact absurd h (by simp)
  rename_i doc0 hinfo
  split at h
  · exact absurd h (by simp)
  rename_i series tail hser
  split at h
  · -- banners enabled
    split at h
    · exact absurd h (by simp)
    rename_i bdoc hbd
    split at h
    · exact absurd h (by simp)
    rename_i bs hpb
    obtain ⟨doc, heps, hrun⟩ := getEps_ok _ _ _ _ _ _ h
    exact ⟨doc, _, heps,
      noSeasons_setShowData _ _ _ _ _ (noSeasons_setShowDataLoop _ _ _ _ hfresh), hrun⟩
  · -- banners disabled
    obtain ⟨doc, heps, hrun⟩ := getEps_ok _ _ _ _ _ _ h
    exact ⟨doc, _, heps, noSeasons_setShowDataLoop _ _ _ _ hfresh, hrun⟩

theorem show_getItem_num_season (sh : Show) (n : Int) (se : Season) :
    Show.getItem sh (.num n) = .ok (.season se) ↔ dlookup sh.seasons n = some se := by
  unfold Show.getItem Show.seasonLookup Show.dataLookup
  cases hs : dlookup sh.seasons n with
  | some se' => simp [hs]
  | none => simp [hs, can_int]

theorem season_getItem_ok (se : Season) (n : Int) (epd : Episode) :
    Season.getItem se n = .ok epd ↔ dlookup se n = some epd := by
  unfold Season.getItem
  cases hs : dlookup se n <;> simp [hs]

theorem episode_getItem_ok (epd : Episode) (field v : String) :
    Episode.getItem epd field = .ok v ↔ dlookup epd field = some v := by
  unfold Episode.getItem
  cases hs : dlookup epd field <;> simp [hs]

theorem searchAux_eq_self (e : Episode) (term : String) (key : Option String)
    (cs : List (String × String)) (r : Episode)
    (h : Episode.searchAux e term key cs = some r) : r = e := by
  induction cs with
  | nil => exact Option.noConfusion h
  | cons c rest ih =>
    rcases c with ⟨ck, cv⟩
    unfold Episode.searchAux at h
    split at h
    · exact ih h
    · split at h
      · injection h with h
        exact h.symm
      · exact ih h

theorem searchAux_isSome (e : Episode) (term : String) (key : Option String)
    (cs : List (String × String)) :
    (Episode.searchAux e term key cs).isSome ↔
      ∃ p ∈ cs, qualifies key p.1 = true ∧
        (pyLower term).toList <:+: (pyLower p.2).toList := by
  induction cs with
  | nil => simp [Episode.searchAux]
  | cons c rest ih =>
    rcases c with ⟨ck, cv⟩
    unfold Episode.searchAux
    by_cases hskip : skipKey key ck = true
    · rw [if_pos hskip, ih]
      constructor
      · rintro ⟨p, hp, hP⟩
        exact ⟨p, List.mem_cons_of_mem _ hp, hP⟩
      · rintro ⟨p, hp, hP⟩
        rcases List.mem_cons.mp hp with h1 | h2
        · exfalso
          cases key with
          | none => simp [skipKey] at hskip
          | some k =>
            simp only [skipKey, decide_eq_true_eq] at hskip
            rw [h1] at hP
            simp only [qualifies, beq_iff_eq] at hP
            exact hskip hP.1
        · exact ⟨p, h2, hP⟩
    · rw [if_neg hskip]
      have hq : qualifies key ck = true := by
        cases key with
        | none => rfl
        | some k =>
          simp only [skipKey, decide_eq_true_eq] at hskip
          simp only [qualifies, beq_iff_eq]
          exact not_not.mp hskip
      by_cases hinf : (pyLower term).toList <:+: (pyLower cv).toList
      · rw [if_pos (by simpa using hinf)]
        constructor
        · intro _
          exact ⟨(ck, cv), List.mem_cons_self _ _, hq, hinf⟩
        · intro _
          rfl
      · rw [if_neg (by simpa using hinf), ih]
        constructor
        · rintro ⟨p, hp, hP⟩
          exact ⟨p, List.mem_cons_of_mem _ hp, hP⟩
        · rintro ⟨p, hp, hP⟩
          rcases List.mem_cons.mp hp with h1 | h2
          · exfalso
            rw [h1] at hP
            exact hinf hP.2
          · exact ⟨p, h2, hP⟩

theorem season_search_mem (se : Season) (term : String) (key : Option String)
    (x : Episode) :
    x ∈ Season.search se term key ↔
      ∃ p ∈ se, Episode.search p.2 term key = some x := by
  induction se with
  | nil => simp [Season.search]
  | cons q rest ih =>
    unfold Season.search
    cases hq : Episode.search q.2 term key with
    | none =>
      rw [ih]
      constructor
      · rintro ⟨p, hp, hx⟩
        exact ⟨p, List.mem_cons_of_mem _ hp, hx⟩
      · rintro ⟨p, hp, hx⟩
        rcases List.mem_cons.mp hp with h1 | h2
        · rw [h1, hq] at hx
          exact absurd hx (by simp)
        · exact ⟨p, h2, hx⟩
    | some r =>
      constructor
      · intro hx
        rcases List.mem_cons.mp hx with h1 | h2
        · exact ⟨q, List.mem_cons_self _ _, by rw [hq, h1]⟩
        · rcases ih.mp h2 with ⟨p, hp, hx2⟩
          exact ⟨p, List.mem_cons_of_mem _ hp, hx2⟩
      · rintro ⟨p, hp, hx⟩
        rcases List.mem_cons.mp hp with h1 | h2
        · rw [h1, hq] at hx
          injection hx with hx
          rw [← hx]
          exact List.mem_cons_self _ _
        · exact List.mem_cons_of_mem _ (ih.mpr ⟨p, h2, hx⟩)

theorem show_search_mem (sh : Show) (term : String) (key : Option String)
    (x : Episode) :
    x ∈ Show.search sh term key ↔
      ∃ p ∈ sh.seasons, x ∈ Season.search p.2 term key := by
  unfold Show.search
  induction sh.seasons with
  | nil => simp [Show.searchAux]
  | cons q rest ih =>
    unfold Show.searchAux
    by_cases hlen : (Season.search q.2 term key).length ≠ 0
    · rw [if_pos hlen, List.mem_append, ih]
      constructor
      · rintro (h1 | ⟨p, hp, hx⟩)
        · exact ⟨q, List.mem_cons_self _ _, h1⟩
        · exact ⟨p, List.mem_cons_of_mem _ hp, hx⟩
      · rintro ⟨p, hp, hx⟩
        rcases List.mem_cons.mp hp with h1 | h2
        · exact Or.inl (h1 ▸ hx)
        · exact Or.inr ⟨p, h2, hx⟩
    · rw [if_neg hlen, List.nil_append, ih]
      have hempty : Season.search q.2 term key = [] :=
        List.length_eq_zero.mp (not_ne_iff.mp hlen)
      constructor
      · rintro ⟨p, hp, hx⟩
        exact ⟨p, List.mem_cons_of_mem _ hp, hx⟩
      · rintro ⟨p, hp, hx⟩
        rcases List.mem_cons.mp hp with h1 | h2
        · rw [h1, hempty] at hx
          exact absurd hx (List.not_mem_nil x)
        · exact ⟨p, h2, hx⟩

theorem nameToSid_cached (remote : Remote) (cfg : Config) (ui : UI) (name : String)
    (st : TvdbState) (sid : Sid) (h : dlookup st.corrections name = some sid) :
    Tvdb.nameToSid remote cfg ui name st = (.ok sid, st, []) := by
  unfold Tvdb.nameToSid
  rw [h]

theorem nameToSid_ok_corrections (remote : Remote) (cfg : Config) (ui : UI)
    (name : String) (st st1 : TvdbState) (sid : Sid) (fs : List Fetch)
    (h : Tvdb.nameToSid remote cfg ui name st = (.ok sid, st1, fs)) :
    dlookup st1.corrections name = some sid := by
  unfold Tvdb.nameToSid at h
  split at h
  · rename_i sid' hc
    obtain ⟨h1, h2, h3⟩ :
        Except.ok (ε := TvdbErr) sid' = Except.ok sid ∧ st = st1 ∧ ([] : List Fetch) = fs := by
      simpa [Prod.ext_iff] using h
    injection h1 with h1
    rw [← h2, ← h1]
    exact hc
  · rename_i hc
    split at h
    · exact absurd h (by simp)
    · rename_i selected fs1 hser
      split at h
      · exact absurd h (by simp)
      · rename_i u st2 fs2 hshow
        obtain ⟨h1, h2, h3⟩ :
            Except.ok (ε := TvdbErr) selected.sid = Except.ok sid ∧ st2 = st1 ∧ fs1 ++ fs2 = fs := by
          simpa [Prod.ext_iff] using h
        injection h1 with h1
        have hcor : st2.corrections = dinsert st.corrections name selected.sid := by
          have hx := corrections_getShowData remote cfg selected.sid
            { st with corrections := dinsert st.corrections name selected.sid }
          rw [hshow] at hx
          exact hx
        rw [← h2, hcor, h1]
        exact dlookup_dinsert_self _ _ _

theorem getItem_ok_inversion (remote : Remote) (cfg : Config) (ui : UI) (key : String)
    (st st1 : TvdbState) (sh : Show) (fs : List Fetch)
    (h : Tvdb.getItem remote cfg ui key st = (.ok sh, st1, fs)) :
    ∃ sid, Tvdb.nameToSid remote cfg ui (pyLower key) st = (.ok sid, st1, fs) ∧
      dlookup st1.shows sid = some sh := by
  unfold Tvdb.getItem at h
  split at h
  · exact absurd h (by simp)
  · rename_i sid st1' fs' hn
    split at h
    · exact absurd h (by simp)
    · rename_i sh' hs
      obtain ⟨h1, h2, h3⟩ :
          Except.ok (ε := TvdbErr) sh' = Except.ok sh ∧ st1' = st1 ∧ fs' = fs := by
        simpa [Prod.ext_iff] using h
      injection h1 with h1
      exact ⟨sid, by rw [← h2, ← h3]; exact hn, by rw [← h2, ← h1]; exact hs⟩

theorem getItem_cached (remote : Remote) (cfg : Config) (ui : UI) (key : String)
    (st : TvdbState) (sid : Sid) (h : dlookup st.corrections (pyLower key) = some sid) :
    Tvdb.getItem remote cfg ui key st =
      (match dlookup st.shows sid with
       | none => (.error .keyError, st, [])
       | some sh => (.ok sh, st, [])) := by
  unfold Tvdb.getItem
  rw [nameToSid_cached remote cfg ui (pyLower key) st sid h]

theorem getSeries_zero (remote : Remote) (ui : UI) (series : String) (doc : List Elem)
    (hdoc : remote.searchDoc series = .ok doc) (hparse : parseCandidates doc = .ok []) :
    Tvdb.getSeries remote ui series =
      (.error (.shownotfound "Show-name search returned zero results (cannot find show on TVDB)"),
       [Fetch.search series]) := by
  unfold Tvdb.getSeries
  split
  · rename_i e hd
    rw [hdoc] at hd
    exact absurd hd (by simp)
  · rename_i doc' hd
    rw [hdoc] at hd
    injection hd with hd
    subst hd
    split
    · rename_i e hp
      rw [hparse] at hp
      exact absurd hp (by simp)
    · rename_i cs hp
      rw [hparse] at hp
      injection hp with hp
      subst hp
      simp

theorem getSeries_sel (remote : Remote) (ui : UI) (series : String) (doc : List Elem)
    (cs : List Candidate) (hdoc : remote.searchDoc series = .ok doc)
    (hparse : parseCandidates doc = .ok cs) (hcs : cs.length ≠ 0) :
    Tvdb.getSeries remote ui series = (ui cs, [Fetch.search series]) := by
  unfold Tvdb.getSeries
  split
  · rename_i e hd
    rw [hdoc] at hd
    exact absurd hd (by simp)
  · rename_i doc' hd
    rw [hdoc] at hd
    injection hd with hd
    subst hd
    split
    · rename_i e hp
      rw [hparse] at hp
      exact absurd hp (by simp)
    · rename_i cs' hp
      rw [hparse] at hp
      injection hp with hp
      subst hp
      rw [if_neg hcs]

theorem getShowData_infoFail (remote : Remote) (cfg : Config) (sid : Sid)
    (st : TvdbState) (e : TvdbErr) (h : remote.seriesInfoDoc sid = .error e) :
    Tvdb.getShowData remote cfg sid st = (.error e, st, [Fetch.seriesInfo sid]) := by
  unfold Tvdb.getShowData
  split
  · rename_i e' hd
    rw [h] at hd
    injection hd with hd
    subst hd
    rfl
  · rename_i doc hd
    rw [h] at hd
    exact absurd hd (by simp)

theorem nameToSid_miss_err (remote : Remote) (cfg : Config) (ui : UI) (name : String)
    (st : TvdbState) (e : TvdbErr) (fsX : List Fetch)
    (hmiss : dlookup st.corrections name = none)
    (hser : Tvdb.getSeries remote ui name = (.error e, fsX)) :
    Tvdb.nameToSid remote cfg ui name st = (.error e, st, fsX) := by
  unfold Tvdb.nameToSid
  split
  · rename_i sid' hc
    rw [hmiss] at hc
    exact Option.noConfusion hc
  · rename_i hc
    split
    · rename_i e' fs1 hser1
      rw [hser] at hser1
      obtain ⟨h1, h2⟩ :
          Except.error (α := Candidate) e = Except.error e' ∧ fsX = fs1 := by
        simpa [Prod.ext_iff] using hser1
      injection h1 with h1
      rw [← h1, ← h2]
    · rename_i selected fs1 hser1
      rw [hser] at hser1
      exact absurd hser1 (by simp)

theorem nameToSid_miss_sel (remote : Remote) (cfg : Config) (ui : UI) (name : String)
    (st : TvdbState) (cand : Candidate) (fsX : List Fetch)
    (hmiss : dlookup st.corrections name = none)
    (hser : Tvdb.getSeries remote ui name = (.ok cand, fsX)) :
    Tvdb.nameToSid remote cfg ui name st =
      (Except.map (fun _ => cand.sid)
        (Tvdb.getShowData remote cfg cand.sid
          { st with corrections := dinsert st.corrections name cand.sid }).1,
       (Tvdb.getShowData remote cfg cand.sid
          { st with corrections := dinsert st.corrections name cand.sid }).2.1,
       fsX ++ (Tvdb.getShowData remote cfg cand.sid
          { st with corrections := dinsert st.corrections name cand.sid }).2.2) := by
  unfold Tvdb.nameToSid
  split
  · rename_i sid' hc
    rw [hmiss] at hc
    exact Option.noConfusion hc
  · rename_i hc
    split
    · rename_i e' fs1 hser1
      rw [hser] at hser1
      exact absurd hser1 (by simp)
    · rename_i selected fs1 hser1
      rw [hser] at hser1
      obtain ⟨h1, h2⟩ :
          Except.ok (ε := TvdbErr) cand = Except.ok selected ∧ fsX = fs1 := by
        simpa [Prod.ext_iff] using hser1
      injection h1 with h1
      subst h1
      subst h2
      rcases hd : Tvdb.getShowData remote cfg cand.sid
          { st with corrections := dinsert st.corrections name cand.sid } with ⟨r2, st2, fs2⟩
      cases r2 <;> rfl

theorem getItem_of_nameToSid_err (remote : Remote) (cfg : Config) (ui : UI)
    (key : String) (st st1 : TvdbState) (e : TvdbErr) (fs : List Fetch)
    (h : Tvdb.nameToSid remote cfg ui (pyLower key) st = (.error e, st1, fs)) :
    Tvdb.getItem remote cfg ui key st = (.error e, st1, fs) := by
  unfold Tvdb.getItem
  split
  · rename_i e' st1' fs' hn
    rw [h] at hn
    obtain ⟨h1, h2, h3⟩ :
        Except.error (α := Sid) e = Except.error e' ∧ st1 = st1' ∧ fs = fs' := by
      simpa [Prod.ext_iff] using hn
    injection h1 with h1
    rw [← h1, ← h2, ← h3]
  · rename_i sid st1' fs' hn
    rw [h] at hn
    exact absurd hn (by simp)

theorem getItem_state (remote : Remote) (cfg : Config) (ui : UI) (key : String)
    (st : TvdbState) :
    (Tvdb.getItem remote cfg ui key st).2.1 =
      (Tvdb.nameToSid remote cfg ui (pyLower key) st).2.1 := by
  unfold Tvdb.getItem
  split
  · rename_i e st1 fs hn
    rw [hn]
  · rename_i sid st1 fs hn
    split <;> rw [hn]

theorem getItem_result (remote : Remote) (cfg : Config) (ui : UI) (key : String)
    (st st1 : TvdbState) (sid : Sid) (fs : List Fetch)
    (h : Tvdb.nameToSid remote cfg ui (pyLower key) st = (.ok sid, st1, fs)) :
    Tvdb.getItem remote cfg ui key st =
      (match dlookup st1.shows sid with
       | none => (.error .keyError, st1, fs)
       | some sh => (.ok sh, st1, fs)) := by
  unfold Tvdb.getItem
  rw [h]

/-! ## Claims -/

/-- C1 (counterexample): a Catalog state in which identifier `1` is
already present in the identifier-to-Show map (after resolving name `a`),
yet resolving the fresh name `b` — which disambiguates to the same
identifier — re-fetches the show-info and episode-list documents for that
identifier, i.e. re-hydrates it.  This refutes "no re-fetch and no
re-hydration of that identifier occurs, even if the name itself has not
been resolved before". -/
theorem spec_c1_counterexample :
    (dlookup exStA.shows (some "1")).isSome = true ∧
    dlookup exStA.corrections "b" = none ∧
    Fetch.seriesInfo (some "1") ∈ (Tvdb.getItem exRemote exCfg exUI "b" exStA).2.2 ∧
    Fetch.epInfo (some "1") ∈ (Tvdb.getItem exRemote exCfg exUI "b" exStA).2.2 := by
  decide

/-- C1 (amended): hydration happens at most once per resolved name: when
resolve is called with a name whose lowercase form is already in the
name-to-identifier map, no fetch at all is performed and the Catalog state
is unchanged (no re-fetch, no re-hydration).  A fresh name that
disambiguates to an already-hydrated identifier does re-hydrate it. -/
theorem spec_c1_theorem (remote : Remote) (cfg : Config) (ui : UI) (key : String)
    (st : TvdbState) (sid : Sid)
    (h : dlookup st.corrections (pyLower key) = some sid) :
    (Tvdb.getItem remote cfg ui key st).2.1 = st ∧
    (Tvdb.getItem remote cfg ui key st).2.2 = [] := by
  rw [getItem_result remote cfg ui key st st sid []
    (nameToSid_cached remote cfg ui (pyLower key) st sid h)]
  cases dlookup st.shows sid <;> exact ⟨rfl, rfl⟩

/-- C1 witness: resolving `a` again on the already-populated state `exStA`
changes nothing and performs zero fetches. -/
theorem spec_c1_witness :
    (Tvdb.getItem exRemote exCfg exUI "a" exStA).2.1 = exStA ∧
    (Tvdb.getItem exRemote exCfg exUI "a" exStA).2.2 = [] :=
  spec_c1_theorem exRemote exCfg exUI "a" exStA (some "1") (by decide)

/-- C2: if a first resolve of a name succeeded with Show `sh` and state
`st1`, a second resolve of the same name returns the same `sh` (the very
entry of the identifier-to-Show map, hence the identical instance in the
reference semantics), the same state, and the empty fetch trace. -/
theorem spec_c2_theorem (remote : Remote) (cfg : Config) (ui : UI) (key : String)
    (st0 st1 : TvdbState) (sh : Show) (fs : List Fetch)
    (h : Tvdb.getItem remote cfg ui key st0 = (.ok sh, st1, fs)) :
    Tvdb.getItem remote cfg ui key st1 = (.ok sh, st1, []) := by
  obtain ⟨sid, hn, hs⟩ := getItem_ok_inversion remote cfg ui key st0 st1 sh fs h
  have hcor := nameToSid_ok_corrections remote cfg ui (pyLower key) st0 st1 sid fs hn
  rw [getItem_result remote cfg ui key st1 st1 sid []
    (nameToSid_cached remote cfg ui (pyLower key) st1 sid hcor), hs]

/-- C2 witness: the concrete second resolve of `a`. -/
theorem spec_c2_witness :
    Tvdb.getItem exRemote exCfg exUI "a" exStA = (.ok exShowA, exStA, []) :=
  spec_c2_theorem exRemote exCfg exUI "a" exSt0 exStA exShowA exFsA (by decide)

/-- C3: Show lookup — a season-number key present among the season
children returns that Season; otherwise a key present in the show-level
attribute map returns that attribute value; otherwise a valid-looking
integer key fails with `seasonnotfound` and any other key fails with
`attributenotfound`. -/
theorem spec_c3_theorem (sh : Show) :
    (∀ (n : Int) (se : Season), dlookup sh.seasons n = some se →
        Show.getItem sh (.num n) = .ok (.season se)) ∧
    (∀ (s : String) (v : DataVal), dlookup sh.data s = some v →
        Show.getItem sh (.str s) = .ok (.attr v)) ∧
    (∀ (n : Int), dlookup sh.seasons n = none →
        Show.getItem sh (.num n) =
          .error (.seasonnotfound ("Could not find season " ++ toString n))) ∧
    (∀ (s : String), dlookup sh.data s = none → can_int (.str s) = true →
        Show.getItem sh (.str s) =
          .error (.seasonnotfound ("Could not find season " ++ s))) ∧
    (∀ (s : String), dlookup sh.data s = none → can_int (.str s) = false →
        Show.getItem sh (.str s) =
          .error (.attributenotfound ("Cannot find attribute " ++ s))) := by
  refine ⟨?_, ?_, ?_, ?_, ?_⟩
  · intro n se h
    simp [Show.getItem, Show.seasonLookup, h]
  · intro s v h
    simp [Show.getItem, Show.seasonLookup, Show.dataLookup, h]
  · intro n h
    simp [Show.getItem, Show.seasonLookup, Show.dataLookup, h, can_int, keyStr]
  · intro s h hint
    simp [Show.getItem, Show.seasonLookup, Show.dataLookup, h, hint, keyStr]
  · intro s h hint
    simp [Show.getItem, Show.seasonLookup, Show.dataLookup, h, hint, keyStr]

/-- C3 witness: concrete instances of the four outcomes on `exShowW`. -/
theorem spec_c3_witness :
    Show.getItem exShowW (.num 1) = .ok (.season exSeW) ∧
    Show.getItem exShowW (.str "seriesname") = .ok (.attr (.text (some "Scrubs"))) ∧
    Show.getItem exShowW (.num 4) =
      .error (.seasonnotfound ("Could not find season " ++ toString (4 : Int))) ∧
    Show.getItem exShowW (.str "overview") =
      .error (.attributenotfound ("Cannot find attribute " ++ "overview")) :=
  ⟨(spec_c3_theorem exShowW).1 1 exSeW (by decide),
   (spec_c3_theorem exShowW).2.1 "seriesname" (.text (some "Scrubs")) (by decide),
   (spec_c3_theorem exShowW).2.2.1 4 (by decide),
   (spec_c3_theorem exShowW).2.2.2.2 "overview" (by decide) (by decide)⟩

/-- C4: Season lookup returns the Episode when the number is present and
fails with `episodenotfound` otherwise; Episode lookup returns the value
when the attribute is present and fails with `attributenotfound`
otherwise; and the two error kinds are distinct. -/
theorem spec_c4_theorem :
    (∀ (se : Season) (n : Int) (ep : Episode), dlookup se n = some ep →
        Season.getItem se n = .ok ep) ∧
    (∀ (se : Season) (n : Int), dlookup se n = none →
        Season.getItem se n = .error .episodenotfound) ∧
    (∀ (ep : Episode) (k v : String), dlookup ep k = some v →
        Episode.getItem ep k = .ok v) ∧
    (∀ (ep : Episode) (k : String), dlookup ep k = none →
        Episode.getItem ep k = .error (.attributenotfound ("Cannot find attribute " ++ k))) ∧
    (∀ m : String, TvdbErr.episodenotfound ≠ TvdbErr.attributenotfound m) := by
  refine ⟨?_, ?_, ?_, ?_, ?_⟩
  · intro se n ep h
    simp [Season.getItem, h]
  · intro se n h
    simp [Season.getItem, h]
  · intro ep k v h
    simp [Episode.getItem, h]
  · intro ep k h
    simp [Episode.getItem, h]
  · intro m h
    exact TvdbErr.noConfusion h

/-- C4 witness: concrete instances on `exSeW` and `exEpW`. -/
theorem spec_c4_witness :
    Season.getItem exSeW 1 = .ok exEpW ∧
    Season.getItem exSeW 2 = .error .episodenotfound ∧
    Episode.getItem exEpW "episodename" = .ok "My First Day" ∧
    Episode.getItem exEpW "overview" =
      .error (.attributenotfound ("Cannot find attribute " ++ "overview")) :=
  ⟨spec_c4_theorem.1 exSeW 1 exEpW (by decide),
   spec_c4_theorem.2.1 exSeW 2 (by decide),
   spec_c4_theorem.2.2.1 exEpW "episodename" "My First Day" (by decide),
   spec_c4_theorem.2.2.2.1 exEpW "overview" (by decide)⟩

/-- C5: on a fresh name, when the name search parses to zero candidates
resolve fails with `shownotfound`; when it parses to one or more, the
choice is delegated to the Disambiguator and, when the Disambiguator
returns a candidate, the name-to-identifier mapping is cached in the final
state (whether or not the subsequent hydration succeeds). -/
theorem spec_c5_theorem (remote : Remote) (cfg : Config) (ui : UI) (key : String)
    (st : TvdbState) (doc : List Elem)
    (hmiss : dlookup st.corrections (pyLower key) = none)
    (hdoc : remote.searchDoc (pyLower key) = .ok doc) :
    (parseCandidates doc = .ok [] →
      Tvdb.getItem remote cfg ui key st =
        (.error (.shownotfound "Show-name search returned zero results (cannot find show on TVDB)"),
         st, [Fetch.search (pyLower key)])) ∧
    (∀ cs cand, parseCandidates doc = .ok cs → cs ≠ [] → ui cs = .ok cand →
      Tvdb.getSeries remote ui (pyLower key) = (ui cs, [Fetch.search (pyLower key)]) ∧
      dlookup (Tvdb.getItem remote cfg ui key st).2.1.corrections (pyLower key) =
        some cand.sid) := by
  constructor
  · intro hparse
    exact getItem_of_nameToSid_err remote cfg ui key st st _ _
      (nameToSid_miss_err remote cfg ui (pyLower key) st _ _ hmiss
        (getSeries_zero remote ui (pyLower key) doc hdoc hparse))
  · intro cs cand hparse hne hui
    have hlen : cs.length ≠ 0 := fun h0 => hne (List.length_eq_zero.mp h0)
    have hser := getSeries_sel remote ui (pyLower key) doc cs hdoc hparse hlen
    refine ⟨hser, ?_⟩
    rw [hui] at hser
    rw [getItem_state, nameToSid_miss_sel remote cfg ui (pyLower key) st cand _ hmiss hser]
    rw [corrections_getShowData]
    exact dlookup_dinsert_self _ _ _

/-- C5 witness: searching `z` parses to zero candidates and fails with
`shownotfound`; searching `b` yields one candidate, the select-first
Disambiguator picks it, and the mapping `b ↦ 1` is cached. -/
theorem spec_c5_witness :
    Tvdb.getItem exRemote exCfg exUI "z" exSt0 =
      (.error (.shownotfound "Show-name search returned zero results (cannot find show on TVDB)"),
       exSt0, [Fetch.search (pyLower "z")]) ∧
    dlookup (Tvdb.getItem exRemote exCfg exUI "b" exSt0).2.1.corrections (pyLower "b") =
      some (some "1") :=
  ⟨(spec_c5_theorem exRemote exCfg exUI "z" exSt0 [] (by decide) (by decide)).1 (by decide),
   ((spec_c5_theorem exRemote exCfg exUI "b" exSt0
      [("Series", [("SeriesName", some "A Show"), ("id", some "1")])]
      (by decide) (by decide)).2
      [⟨some "1", "A Show"⟩] ⟨some "1", "A Show"⟩
      (by decide) (by decide) (by decide)).2⟩

/-- C6 (counterexample): with `key = "Foo"` and an Episode that has an
attribute literally named `Foo` whose value contains the term, the search
returns nothing — because the code compares the LOWERCASED stored name
against the raw key.  Under the claim's reading ("only the attribute of
that name qualifies"), the attribute named `Foo` qualifies and contains
the term, so the Episode should have been returned. -/
theorem spec_c6_counterexample :
    Episode.search [("Foo", "x")] "x" (some "Foo") = none ∧
    dlookup ([("Foo", "x")] : Episode) "Foo" = some "x" ∧
    (pyLower "x").toList <:+: (pyLower "x").toList := by
  refine ⟨by decide, by decide, by decide⟩

/-- C6 (amended): an Episode is returned (as itself, at most once) iff
some qualifying attribute's lowercased value contains the lowercased term,
where with a `key` given exactly the attributes whose LOWERCASED name
equals the key qualify (the key itself is not lowercased), and with no
`key` every attribute qualifies; `Season.search` and `Show.search` return
the flattened matching Episodes of their children. -/
theorem spec_c6_theorem :
    (∀ (e : Episode) (term : String) (key : Option String) (r : Episode),
        Episode.search e term key = some r → r = e) ∧
    (∀ (e : Episode) (term : String) (key : Option String),
        (Episode.search e term key).isSome = true ↔
          ∃ p ∈ e, qualifies key p.1 = true ∧
            (pyLower term).toList <:+: (pyLower p.2).toList) ∧
    (∀ (se : Season) (term : String) (key : Option String) (x : Episode),
        x ∈ Season.search se term key ↔ ∃ p ∈ se, Episode.search p.2 term key = some x) ∧
    (∀ (sh : Show) (term : String) (key : Option String) (x : Episode),
        x ∈ Show.search sh term key ↔
          ∃ p ∈ sh.seasons, x ∈ Season.search p.2 term key) := by
  refine ⟨?_, ?_, season_search_mem, show_search_mem⟩
  · intro e term key r h
    exact searchAux_eq_self e (pyLower term) key e r h
  · intro e term key
    unfold Episode.search
    rw [searchAux_isSome]
    constructor
    · rintro ⟨p, hp, hq, hi⟩
      rw [pyLower_pyLower] at hi
      exact ⟨p, hp, hq, hi⟩
    · rintro ⟨p, hp, hq, hi⟩
      rw [← pyLower_pyLower term] at hi
      exact ⟨p, hp, hq, hi⟩

/-- C6 witness: a term-only search on a concrete Episode matches. -/
theorem spec_c6_witness :
    (Episode.search exEpW "FIRST day" none).isSome = true :=
  (spec_c6_theorem.2.1 exEpW "FIRST day" none).mpr
    ⟨("episodename", "My First Day"), by decide, by decide, by decide⟩

/-- C7: after a successful fresh hydration of `sid`, every stored episode
field reachable as `show[season][episode][field]` equals the cleaned text
(`&amp;` replaced by `and`, surrounding whitespace stripped) of a
corresponding child of an episode element of the source document that
parses to that (season, episode) pair and whose lowercased tag is the
field name. -/
theorem spec_c7_theorem (remote : Remote) (cfg : Config) (sid : Sid)
    (st st' : TvdbState) (fs : List Fetch) (doc : List Elem)
    (hfresh : dlookup st.shows sid = none)
    (h : Tvdb.getShowData remote cfg sid st = (.ok (), st', fs))
    (hdoc : remote.epsDoc sid = .ok doc) :
    ∀ (sh : Show) (seas ep : Int) (field v : String) (se : Season) (epd : Episode),
      dlookup st'.shows sid = some sh →
      Show.getItem sh (.num seas) = .ok (.season se) →
      Season.getItem se ep = .ok epd →
      Episode.getItem epd field = .ok v →
      ∃ e ∈ doc.filter (fun el => el.1 = "Episode"), epGives e seas ep field v := by
  intro sh seas ep field v se epd hsh hnav1 hnav2 hnav3
  have hA := (show_getItem_num_season sh seas se).mp hnav1
  have hB := (season_getItem_ok se ep epd).mp hnav2
  have hC := (episode_getItem_ok epd field v).mp hnav3
  have hep : st'.epLookup sid seas ep field = some v := by
    simp [TvdbState.epLookup, hsh, hA, hB, hC]
  obtain ⟨doc', stMid, hdoc', hmid, hrun⟩ :=
    getShowData_ok_decomp remote cfg sid st st' fs h (noSeasons_of_absent st sid hfresh)
  rw [hdoc] at hdoc'
  injection hdoc' with hdd
  subst hdd
  rcases epLookup_processEpisodes sid _ stMid st' hrun sid seas ep field v hep with
    h1 | ⟨_, e, he, hg⟩
  · rw [epLookup_none_of_noSeasons stMid sid hmid seas ep field] at h1
    exact Option.noConfusion h1
  · exact ⟨e, he, hg⟩

/-- C7 witness: the concrete hydration of id `1` stores
`episodename = "My First and Day"` for season 1 episode 2, cleaned from
the source text `" My First &amp; Day "`. -/
theorem spec_c7_witness :
    ∃ e ∈ exDocH.filter (fun el => el.1 = "Episode"),
      epGives e 1 2 "episodename" "My First and Day" :=
  spec_c7_theorem exRemote exCfg (some "1") exSt0 exStH exFsH exDocH
    (by decide) (by decide) (by decide)
    exShH 1 2 "episodename" "My First and Day" exSeH exEpH
    (by decide) (by decide) (by decide) (by decide)

/-- C8 (counterexample): during hydration the `SeasonNumber` element
itself IS set as an episode attribute (`seasonnumber`), refuting "the
season-number and episode-number elements themselves are not re-set as
attributes" (the code iterates over all children of the episode element
with no exclusion; its own `Episode.__repr__` relies on these
attributes). -/
theorem spec_c8_counterexample :
    (Tvdb.getShowData exRemote exCfg (some "1") exSt0).1 = .ok () ∧
    (Tvdb.getShowData exRemote exCfg (some "1") exSt0).2.1.epLookup
      (some "1") 1 2 "seasonnumber" = some "1" ∧
    (Tvdb.getShowData exRemote exCfg (some "1") exSt0).2.1.epLookup
      (some "1") 1 2 "episodenumber" = some "2" := by
  refine ⟨by decide, by decide, by decide⟩

/-- C8 (amended): after a successful fresh hydration of `sid`, an episode
attribute is stored at `(seas, ep, field)` exactly when some episode
element of the source document parses to `(seas, ep)` and has a child
element (including the season-number and episode-number elements
themselves) with non-`None` text whose lowercased tag is `field`. -/
theorem spec_c8_theorem (remote : Remote) (cfg : Config) (sid : Sid)
    (st st' : TvdbState) (fs : List Fetch) (doc : List Elem)
    (hfresh : dlookup st.shows sid = none)
    (h : Tvdb.getShowData remote cfg sid st = (.ok (), st', fs))
    (hdoc : remote.epsDoc sid = .ok doc) :
    ∀ (seas ep : Int) (field : String),
      (st'.epLookup sid seas ep field).isSome = true ↔
      ∃ e ∈ doc.filter (fun el => el.1 = "Episode"), epSetsField e seas ep field := by
  intro seas ep field
  obtain ⟨doc', stMid, hdoc', hmid, hrun⟩ :=
    getShowData_ok_decomp remote cfg sid st st' fs h (noSeasons_of_absent st sid hfresh)
  rw [hdoc] at hdoc'
  injection hdoc' with hdd
  subst hdd
  constructor
  · intro hs
    obtain ⟨v, hv⟩ := Option.isSome_iff_exists.mp hs
    rcases epLookup_processEpisodes sid _ stMid st' hrun sid seas ep field v hv with
      h1 | ⟨_, e, he, hg⟩
    · rw [epLookup_none_of_noSeasons stMid sid hmid seas ep field] at h1
      exact Option.noConfusion h1
    · obtain ⟨hn1, hn2, c, hc, txt, htxt, hfield, hclean⟩ := hg
      exact ⟨e, he, hn1, hn2, c, hc, hfield, by rw [htxt]; exact Option.noConfusion⟩
  · rintro ⟨e, he, hs⟩
    exact epLookup_processEpisodes_sets sid _ stMid st' hrun e he seas ep field hs

/-- C8 witness: the `EpisodeName` child of the concrete hydration's only
episode element yields a stored attribute at (1, 2, episodename). -/
theorem spec_c8_witness :
    ((Tvdb.getShowData exRemote exCfg (some "1") exSt0).2.1.epLookup
      (some "1") 1 2 "episodename").isSome = true :=
  (spec_c8_theorem exRemote exCfg (some "1") exSt0 exStH exFsH exDocH
    (by decide) (by decide) (by decide) 1 2 "episodename").mpr
    ⟨("Episode", [("SeasonNumber", some "1"), ("EpisodeNumber", some "2"),
                  ("EpisodeName", some " My First &amp; Day ")]),
     by decide,
     ⟨some "1", rfl, by decide⟩, ⟨some "2", rfl, by decide⟩,
     ("EpisodeName", some " My First &amp; Day "), by decide, by decide,
     by decide⟩

theorem show_getItem_str_attr (sh : Show) (s : String) (v : DataVal) :
    Show.getItem sh (.str s) = .ok (.attr v) ↔ dlookup sh.data s = some v := by
  unfold Show.getItem Show.seasonLookup Show.dataLookup
  cases hd : dlookup sh.data s with
  | some v' => simp [hd]
  | none =>
    simp only [hd]
    constructor
    · intro h
      split at h <;> exact absurd h (by simp)
    · intro h
      exact Option.noConfusion h

/-- C9: reads are pure — all three lookup operations are functions of the
container alone (they return no modified container, mirroring the Python
code which performs no writes on the read path), a successful lookup
returns exactly a pre-existing entry, a failed lookup raises the
appropriate not-found error, and search only ever returns episodes that
already exist in the containment tree. -/
theorem spec_c9_theorem :
    (∀ (sh : Show) (n : Int) (se : Season),
        Show.getItem sh (.num n) = .ok (.season se) → dlookup sh.seasons n = some se) ∧
    (∀ (sh : Show) (s : String) (v : DataVal),
        Show.getItem sh (.str s) = .ok (.attr v) → dlookup sh.data s = some v) ∧
    (∀ (se : Season) (n : Int) (ep : Episode),
        Season.getItem se n = .ok ep → dlookup se n = some ep) ∧
    (∀ (ep : Episode) (k v : String),
        Episode.getItem ep k = .ok v → dlookup ep k = some v) ∧
    (∀ (sh : Show) (key : Key),
        (∃ it, Show.getItem sh key = .ok it) ∨
        (∃ m, Show.getItem sh key = .error (.seasonnotfound m)) ∨
        (∃ m, Show.getItem sh key = .error (.attributenotfound m))) ∧
    (∀ (se : Season) (n : Int),
        (∃ ep, Season.getItem se n = .ok ep) ∨
        Season.getItem se n = .error .episodenotfound) ∧
    (∀ (ep : Episode) (k : String),
        (∃ v, Episode.getItem ep k = .ok v) ∨
        (∃ m, Episode.getItem ep k = .error (.attributenotfound m))) ∧
    (∀ (sh : Show) (term : String) (key : Option String) (x : Episode),
        x ∈ Show.search sh term key → ∃ p ∈ sh.seasons, ∃ q ∈ p.2, q.2 = x) := by
  refine ⟨?_, ?_, ?_, ?_, ?_, ?_, ?_, ?_⟩
  · intro sh n se h
    exact (show_getItem_num_season sh n se).mp h
  · intro sh s v h
    exact (show_getItem_str_attr sh s v).mp h
  · intro se n ep h
    exact (season_getItem_ok se n ep).mp h
  · intro ep k v h
    exact (episode_getItem_ok ep k v).mp h
  · intro sh key
    unfold Show.getItem
    cases hs : sh.seasonLookup key with
    | some se => exact Or.inl ⟨.season se, by simp [hs]⟩
    | none =>
      cases hd : sh.dataLookup key with
      | some v => exact Or.inl ⟨.attr v, by simp [hs, hd]⟩
      | none =>
        by_cases hint : can_int key = true
        · exact Or.inr (Or.inl ⟨"Could not find season " ++ keyStr key,
            by simp [hs, hd, hint]⟩)
        · exact Or.inr (Or.inr ⟨"Cannot find attribute " ++ keyStr key,
            by simp [hs, hd, hint]⟩)
  · intro se n
    unfold Season.getItem
    cases hs : dlookup se n with
    | some ep => exact Or.inl ⟨ep, by simp [hs]⟩
    | none => exact Or.inr (by simp [hs])
  · intro ep k
    unfold Episode.getItem
    cases hs : dlookup ep k with
    | some v => exact Or.inl ⟨v, by simp [hs]⟩
    | none => exact Or.inr ⟨"Cannot find attribute " ++ k, by simp [hs]⟩
  · intro sh term key x hx
    obtain ⟨p, hp, hxse⟩ := (show_search_mem sh term key x).mp hx
    obtain ⟨q, hq, hsearch⟩ := (season_search_mem p.2 term key x).mp hxse
    have hxq := searchAux_eq_self q.2 (pyLower term) key q.2 x hsearch
    exact ⟨p, hp, q, hq, hxq.symm⟩

/-- C9 witness: reading season 1 of `exShowW` returns the pre-existing
Season entry. -/
theorem spec_c9_witness : dlookup exShowW.seasons 1 = some exSeW :=
  spec_c9_theorem.1 exShowW 1 exSeW (by decide)

/-- C10 (counterexample): with a remote whose show-info fetch succeeds but
whose episode-list fetch fails, a fresh resolve aborts with the
connectivity error, yet a later resolve of the same name does NOT fail on
a missing identifier-to-Show entry — it returns the partially hydrated
Show, because the Show entry was already created while storing the
show-info attributes.  This refutes the claim's "for every fresh name
whose ... hydration raises a connectivity error ... a later resolve ...
fails on the missing identifier-to-Show entry". -/
theorem spec_c10_counterexample :
    (Tvdb.getItem exRemoteEpsFail exCfg exUI "a" exSt0).1 = .error (.error "conn") ∧
    (Tvdb.getItem exRemoteEpsFail exCfg exUI "a"
        (Tvdb.getItem exRemoteEpsFail exCfg exUI "a" exSt0).2.1).1 =
      .ok ⟨[], [("seriesname", DataVal.text (some "T"))]⟩ ∧
    (Tvdb.getItem exRemoteEpsFail exCfg exUI "a"
        (Tvdb.getItem exRemoteEpsFail exCfg exUI "a" exSt0).2.1).2.2 = [] := by
  refine ⟨by decide, by decide, by decide⟩

/-- C10 (amended): resolve is not atomic on error — for a fresh name whose
disambiguation succeeds but whose hydration fails on its FIRST fetch (the
show-info request, with a connectivity error), the name-to-identifier
correction has already been inserted before hydration and remains
afterwards, so a later resolve of the same name performs no fetch (skips
both the name search and hydration) and fails with the `KeyError` of the
missing identifier-to-Show entry instead of retrying hydration.  (If the
failure strikes a later fetch, the partially created Show entry remains
and a later resolve returns it instead.) -/
theorem spec_c10_theorem (remote : Remote) (cfg : Config) (ui : UI) (key : String)
    (st : TvdbState) (cand : Candidate) (fsX : List Fetch) (msg : String)
    (hmiss : dlookup st.corrections (pyLower key) = none)
    (hser : Tvdb.getSeries remote ui (pyLower key) = (.ok cand, fsX))
    (hinfo : remote.seriesInfoDoc cand.sid = .error (.error msg))
    (hshow : dlookup st.shows cand.sid = none) :
    Tvdb.getItem remote cfg ui key st =
      (.error (.error msg),
       { st with corrections := dinsert st.corrections (pyLower key) cand.sid },
       fsX ++ [Fetch.seriesInfo cand.sid]) ∧
    Tvdb.getItem remote cfg ui key
        { st with corrections := dinsert st.corrections (pyLower key) cand.sid } =
      (.error .keyError,
       { st with corrections := dinsert st.corrections (pyLower key) cand.sid },
       []) := by
  have hgsd := getShowData_infoFail remote cfg cand.sid
    { st with corrections := dinsert st.corrections (pyLower key) cand.sid }
    (.error msg) hinfo
  constructor
  · have hnts := nameToSid_miss_sel remote cfg ui (pyLower key) st cand fsX hmiss hser
    rw [hgsd] at hnts
    exact getItem_of_nameToSid_err remote cfg ui key st _ _ _ hnts
  · rw [getItem_result remote cfg ui key _ _ cand.sid []
      (nameToSid_cached remote cfg ui (pyLower key) _ cand.sid
        (dlookup_dinsert_self _ _ _))]
    simp only []
    rw [hshow]

/-- C10 witness: against `exRemoteInfoFail` the first resolve of `a` fails
on the show-info fetch but caches `a ↦ 9`; the second resolve does no
fetch and fails with `KeyError`. -/
theorem spec_c10_witness :
    Tvdb.getItem exRemoteInfoFail exCfg exUI "a" exSt0 =
      (.error (.error "conn"),
       { exSt0 with corrections := dinsert exSt0.corrections (pyLower "a") (some "9") },
       [Fetch.search "a"] ++ [Fetch.seriesInfo (some "9")]) ∧
    Tvdb.getItem exRemoteInfoFail exCfg exUI "a"
        { exSt0 with corrections := dinsert exSt0.corrections (pyLower "a") (some "9") } =
      (.error .keyError,
       { exSt0 with corrections := dinsert exSt0.corrections (pyLower "a") (some "9") },
       []) :=
  spec_c10_theorem exRemoteInfoFail exCfg exUI "a" exSt0 ⟨some "9", "T"⟩
    [Fetch.search "a"] "conn" (by decide) (by decide) (by decide) (by decide)
